import Mathlib

/-!
Verification of the Persona.AI session-metrics pipeline and feedback engine
(`Persona_Streamlit.py`): the per-frame landmark feature extraction, metric
aggregation, the remote-feedback-with-local-fallback protocol, the local
feedback heuristic, and the progress/streak/badge state machine.

Numeric metric values are embedded as rationals (exact arithmetic for the
threshold comparisons and mean formulas); the landmark extractor, which uses a
real square root, is embedded over the reals.
-/

namespace PersonaAI

/-- The per-frame facial metric vector: the keys of the `facial_metrics`
dictionary built by `process_face_landmarks`. -/
structure FacialMetrics (α : Type) where
  expression_diversity : α
  eye_movement : α
  mouth_movement : α
  head_position : α
deriving DecidableEq

/-- The per-recording voice metric vector: the keys of the `audio_metrics`
dictionary built by `analyze_audio`. -/
structure AudioMetrics where
  volume : ℚ
  pitch_variation : ℚ
  speech_rate : ℚ
  clarity : ℚ
deriving DecidableEq

/-- The feedback dictionary produced by the feedback engine.  `voice_score` is
optional: it is present on every path of `Persona_Streamlit.py` (audio is
always captured there) and omitted on the facial-only variant path. -/
structure FeedbackReport where
  overall_score : ℚ
  expression_score : ℚ
  voice_score : Option ℚ
  strengths : List String
  areas_to_improve : List String
  tips : List String
deriving DecidableEq

/-- Expression score `np.mean([expression_diversity, eye_movement,
mouth_movement])` as computed in both `get_gemini_feedback` and
`generate_feedback_fallback`. -/
def expressionScore (fm : FacialMetrics ℚ) : ℚ :=
  (fm.expression_diversity + fm.eye_movement + fm.mouth_movement) / 3

/-- Voice score `np.mean([volume, pitch_variation, speech_rate, clarity])` as
computed in both `get_gemini_feedback` and `generate_feedback_fallback`. -/
def voiceScore (am : AudioMetrics) : ℚ :=
  (am.volume + am.pitch_variation + am.speech_rate + am.clarity) / 4

/-- Modelled from the spec: the facial-only near-duplicate application variant
is not under `src/`; its local feedback heuristic, where audio metrics are
absent, is modelled from the spec: only the facial rules are evaluated,
`voice_score` is omitted, `overall_score = expression_score`, and the same
generic fillers keep `strengths` and `areas_to_improve` non-empty. -/
def generate_feedback_fallback_noAudio (facial_metrics : FacialMetrics ℚ) : FeedbackReport :=
  let expression_score := expressionScore facial_metrics
  let strengths :=
    if 70 < facial_metrics.eye_movement then ["Good eye expressiveness"] else []
  let areas :=
    if facial_metrics.mouth_movement < 60 then ["Facial expressions"] else []
  let tips :=
    if facial_metrics.mouth_movement < 60 then
      ["Try to be more expressive with your mouth when speaking"]
    else []
  let strengths2 := if strengths.isEmpty then strengths ++ ["Consistent delivery"] else strengths
  let areas2 := if areas.isEmpty then areas ++ ["Fine-tuning your natural style"] else areas
  let tips2 :=
    if areas.isEmpty then tips ++ ["Continue practicing to build on your strengths"] else tips
  { overall_score := expression_score
    expression_score := expression_score
    voice_score := none
    strengths := strengths2
    areas_to_improve := areas2
    tips := tips2 }

/-- Local feedback heuristic `generate_feedback_fallback` of
`Persona_Streamlit.py` (audio present), with the audio-absent case delegated to
the spec-modelled facial-only variant. -/
def generate_feedback_fallback (facial_metrics : FacialMetrics ℚ)
    (audio_metrics : Option AudioMetrics) : FeedbackReport :=
  match audio_metrics with
  | none => generate_feedback_fallback_noAudio facial_metrics
  | some am =>
    let expression_score := expressionScore facial_metrics
    let voice_score := voiceScore am
    let overall_score := (expression_score + voice_score) / 2
    let strengths :=
      (if 70 < facial_metrics.eye_movement then ["Good eye expressiveness"] else []) ++
      (if 70 < am.pitch_variation then ["Excellent vocal variety"] else []) ++
      (if 80 < am.clarity then ["Clear pronunciation"] else [])
    let areas :=
      (if facial_metrics.mouth_movement < 60 then ["Facial expressions"] else []) ++
      (if am.speech_rate < 50 then ["Speech pace"]
       else if 85 < am.speech_rate then ["Speech pace"] else [])
    let tips :=
      (if facial_metrics.mouth_movement < 60 then
        ["Try to be more expressive with your mouth when speaking"] else []) ++
      (if am.speech_rate < 50 then
        ["Consider speaking a bit faster to maintain audience engagement"]
       else if 85 < am.speech_rate then ["Try slowing down a bit to ensure clarity"] else [])
    let strengths2 := if strengths.isEmpty then strengths ++ ["Consistent delivery"] else strengths
    let areas2 := if areas.isEmpty then areas ++ ["Fine-tuning your natural style"] else areas
    let tips2 :=
      if areas.isEmpty then tips ++ ["Continue practicing to build on your strengths"] else tips
    { overall_score := overall_score
      expression_score := expression_score
      voice_score := some voice_score
      strengths := strengths2
      areas_to_improve := areas2
      tips := tips2 }

/-- The feedback dictionary parsed from the remote JSON payload, before the
required-field check of `get_gemini_feedback`: each field may be missing. -/
structure RemoteFeedback where
  overall_score : Option ℚ
  expression_score : Option ℚ
  voice_score : Option ℚ
  strengths : Option (List String)
  areas_to_improve : Option (List String)
  tips : Option (List String)
deriving DecidableEq

/-- The required-field check of `get_gemini_feedback`: the remote feedback is
usable only when every field of `required_fields` is present. -/
def RemoteFeedback.toReport (rf : RemoteFeedback) : Option FeedbackReport :=
  match rf.overall_score, rf.expression_score, rf.voice_score,
        rf.strengths, rf.areas_to_improve, rf.tips with
  | some o, some e, some v, some s, some a, some t =>
    some { overall_score := o, expression_score := e, voice_score := some v,
           strengths := s, areas_to_improve := a, tips := t }
  | _, _, _, _, _, _ => none

/-- Outcome of one attempted remote call: a raised transport/HTTP exception
(`requests.post` / `raise_for_status`), a response envelope without candidates,
a text payload `json.loads` cannot decode, or a decoded feedback dictionary. -/
inductive RemoteResult where
  | transportError
  | noCandidates
  | malformedJson
  | parsed (rf : RemoteFeedback)
deriving DecidableEq

/-- A remote attempt that must be discarded: any outcome other than a decoded
feedback dictionary carrying every required field. -/
def RemoteResult.failed : RemoteResult → Prop
  | .parsed rf => rf.toReport = none
  | _ => True

/-- Remote feedback protocol `get_gemini_feedback`: with an empty credential
(`if not api_key`) the remote service is never contacted and the local
heuristic runs; otherwise the remote outcome is used only when it decodes with
all required fields, and every failure falls back to
`generate_feedback_fallback` on the same metrics. -/
def get_gemini_feedback (api_key : String) (facial_metrics : FacialMetrics ℚ)
    (audio_metrics : Option AudioMetrics) (remote : RemoteResult) : FeedbackReport :=
  if api_key = "" then generate_feedback_fallback facial_metrics audio_metrics
  else
    match remote with
    | .transportError => generate_feedback_fallback facial_metrics audio_metrics
    | .noCandidates => generate_feedback_fallback facial_metrics audio_metrics
    | .malformedJson => generate_feedback_fallback facial_metrics audio_metrics
    | .parsed rf =>
      match rf.toReport with
      | some fb => fb
      | none => generate_feedback_fallback facial_metrics audio_metrics

/-- Aggregation `avg_facial_metrics`: the per-field `np.mean` over the
collected `facial_data`, as computed in `main` (lines 505-508).  On an empty
list the Python comprehension raises `IndexError` at `facial_data[0]`; the
raised error is embedded as `none`. -/
def avg_facial_metrics (facial_data : List (FacialMetrics ℚ)) :
    Option (FacialMetrics ℚ) :=
  match facial_data with
  | [] => none
  | _ :: _ =>
    some
      { expression_diversity :=
          (facial_data.map FacialMetrics.expression_diversity).sum / facial_data.length
        eye_movement :=
          (facial_data.map FacialMetrics.eye_movement).sum / facial_data.length
        mouth_movement :=
          (facial_data.map FacialMetrics.mouth_movement).sum / facial_data.length
        head_position :=
          (facial_data.map FacialMetrics.head_position).sum / facial_data.length }

/-- One landmark point of the face mesh (normalized coordinates plus depth). -/
structure Landmark where
  x : ℝ
  y : ℝ
  z : ℝ

/-- Landmark feature extraction `process_face_landmarks`: the detection result
is either empty (no face) or one face's landmark array, embedded as a total
index function.  With no face
the `facial_metrics` dictionary keeps its zero initializers; with a face,
`eye_movement` is the Euclidean distance between landmarks 145 and 374 scaled
by 100, `mouth_movement` is `|y(61) - y(291)|` scaled by 100, `head_position`
is `(z(0) + 0.5) * 100`, and `expression_diversity` is never assigned. -/
noncomputable def process_face_landmarks (detection : Option (ℕ → Landmark)) :
    FacialMetrics ℝ :=
  match detection with
  | none =>
    { expression_diversity := 0, eye_movement := 0, mouth_movement := 0, head_position := 0 }
  | some lm =>
    let eye_distance :=
      Real.sqrt (((lm 145).x - (lm 374).x) ^ 2 + ((lm 145).y - (lm 374).y) ^ 2)
    let mouth_openness := |(lm 61).y - (lm 291).y|
    { expression_diversity := 0
      eye_movement := eye_distance * 100
      mouth_movement := mouth_openness * 100
      head_position := ((lm 0).z + 0.5) * 100 }

/-- The process-wide progress state held in `st.session_state`: sessions
completed, current streak, last session date (a day number), unlocked badges. -/
structure ProgressState where
  sessions_completed : ℕ
  streak : ℕ
  last_session_date : Option ℤ
  badges : List String
deriving DecidableEq

/-- Streak/date portion of `update_progress` (lines 300-314): dates are
embedded as integer day numbers so that `(today - last).days` is `today - last`. -/
def update_streak (today : ℤ) (s : ProgressState) : ProgressState :=
  match s.last_session_date with
  | none =>
    { s with
      sessions_completed := s.sessions_completed + 1
      streak := 1
      last_session_date := some today }
  | some last =>
    if last ≠ today then
      let days_diff := today - last
      { s with
        sessions_completed := s.sessions_completed + 1
        streak :=
          if days_diff = 1 then s.streak + 1
          else if 1 < days_diff then 1
          else s.streak
        last_session_date := some today }
    else s

/-- One badge check of `update_progress`: when the unlock condition holds and
the badge is not already in `st.session_state.badges`, it is appended both to
the owned badges and to the `new_badges` list returned by the call. -/
def badgeStep (p : ProgressState × List String) (badge : String × Bool) :
    ProgressState × List String :=
  if badge.2 ∧ badge.1 ∉ p.1.badges then
    ({ p.1 with badges := p.1.badges ++ [badge.1] }, p.2 ++ [badge.1])
  else p

/-- The five badge checks of `update_progress`, in source order, applied to the
feedback scores and the already-updated session/streak counters.  A missing
`voice_score` (facial-only variant) never unlocks the voice badge. -/
def badgeChecks (feedback : FeedbackReport) (s1 : ProgressState) : List (String × Bool) :=
  [("⭐ Star Performer", decide (85 < feedback.overall_score)),
   ("🏆 Dedicated Learner", decide (s1.sessions_completed = 5)),
   ("🔥 3-Day Streak", decide (3 ≤ s1.streak)),
   ("😊 Expression Master", decide (80 < feedback.expression_score)),
   ("🎤 Voice Pro", decide (80 < feedback.voice_score.getD 0))]

/-- Progress tracker `update_progress`: the streak update followed by the five
badge checks, in source order, each guarded by
`new_badge not in st.session_state.badges`; returns the mutated state plus the
`new_badges` list. -/
def update_progress (feedback : FeedbackReport) (today : ℤ) (s : ProgressState) :
    ProgressState × List String :=
  let s1 := update_streak today s
  List.foldl badgeStep (s1, []) (badgeChecks feedback s1)

/-- Badge names a run of badge checks appends, starting from the owned list
`B` and tracking its growth; used to characterize `update_progress`. -/
def newOf : List (String × Bool) → List String → List String
  | [], _ => []
  | badge :: rest, B =>
    if badge.2 ∧ badge.1 ∉ B then badge.1 :: newOf rest (B ++ [badge.1])
    else newOf rest B

/-! ### Helper lemmas -/

lemma ifEmpty_ne_nil (l : List String) (x : String) :
    (if l.isEmpty then l ++ [x] else l) ≠ [] := by
  cases l <;> simp

lemma newOf_nil (B : List String) : newOf [] B = [] := rfl

lemma newOf_cons (b : String × Bool) (rest : List (String × Bool)) (B : List String) :
    newOf (b :: rest) B =
      (if b.2 ∧ b.1 ∉ B then [b.1] else []) ++
        newOf rest (B ++ (if b.2 ∧ b.1 ∉ B then [b.1] else [])) := by
  by_cases h : b.2 ∧ b.1 ∉ B <;> simp [newOf, h]

lemma foldl_badgeStep_eq (l : List (String × Bool)) (st : ProgressState)
    (acc : List String) :
    List.foldl badgeStep (st, acc) l =
      ({ st with badges := st.badges ++ newOf l st.badges },
        acc ++ newOf l st.badges) := by
  induction l generalizing st acc with
  | nil => cases st; simp [newOf]
  | cons b rest ih =>
    by_cases h : b.2 ∧ b.1 ∉ st.badges
    · rw [List.foldl_cons]
      have hb : badgeStep (st, acc) b =
          ({ st with badges := st.badges ++ [b.1] }, acc ++ [b.1]) := by
        simp [badgeStep, h]
      rw [hb, ih]
      cases st
      simp [newOf, h]
    · rw [List.foldl_cons]
      have hb : badgeStep (st, acc) b = (st, acc) := by
        unfold badgeStep
        exact if_neg h
      rw [hb, ih]
      cases st
      simp [newOf, h]

lemma nodup_append_newOf :
    ∀ (l : List (String × Bool)) (B : List String), B.Nodup → (B ++ newOf l B).Nodup := by
  intro l
  induction l with
  | nil => intro B h; simpa [newOf]
  | cons b rest ih =>
    intro B hB
    by_cases hc : b.2 ∧ b.1 ∉ B
    · have he : B ++ newOf (b :: rest) B = (B ++ [b.1]) ++ newOf rest (B ++ [b.1]) := by
        simp [newOf, hc]
      rw [he]
      refine ih (B ++ [b.1]) ?_
      simp [List.nodup_append, hB, hc.2]
    · have he : B ++ newOf (b :: rest) B = B ++ newOf rest B := by
        simp [newOf, hc]
      rw [he]
      exact ih B hB

lemma not_mem_append_if {m n : String} (h : n ≠ m) (B : List String) (p : Prop)
    [Decidable p] :
    (n ∉ B ++ (if p then [m] else [])) ↔ n ∉ B := by
  by_cases hp : p <;> simp [hp, h]

lemma mem_if_singleton {n m : String} {p : Prop} [Decidable p] :
    n ∈ (if p then [m] else []) ↔ p ∧ n = m := by
  by_cases hp : p <;> simp [hp]

lemma newOf_badgeChecks (feedback : FeedbackReport) (s1 : ProgressState)
    (B : List String) :
    newOf (badgeChecks feedback s1) B =
      (if 85 < feedback.overall_score ∧ "⭐ Star Performer" ∉ B then
        ["⭐ Star Performer"] else []) ++
      ((if s1.sessions_completed = 5 ∧ "🏆 Dedicated Learner" ∉ B then
        ["🏆 Dedicated Learner"] else []) ++
      ((if 3 ≤ s1.streak ∧ "🔥 3-Day Streak" ∉ B then
        ["🔥 3-Day Streak"] else []) ++
      ((if 80 < feedback.expression_score ∧ "😊 Expression Master" ∉ B then
        ["😊 Expression Master"] else []) ++
      (if 80 < feedback.voice_score.getD 0 ∧ "🎤 Voice Pro" ∉ B then
        ["🎤 Voice Pro"] else [])))) := by
  have d21 : ("🏆 Dedicated Learner" : String) ≠ "⭐ Star Performer" := by decide
  have d31 : ("🔥 3-Day Streak" : String) ≠ "⭐ Star Performer" := by decide
  have d32 : ("🔥 3-Day Streak" : String) ≠ "🏆 Dedicated Learner" := by decide
  have d41 : ("😊 Expression Master" : String) ≠ "⭐ Star Performer" := by decide
  have d42 : ("😊 Expression Master" : String) ≠ "🏆 Dedicated Learner" := by decide
  have d43 : ("😊 Expression Master" : String) ≠ "🔥 3-Day Streak" := by decide
  have d51 : ("🎤 Voice Pro" : String) ≠ "⭐ Star Performer" := by decide
  have d52 : ("🎤 Voice Pro" : String) ≠ "🏆 Dedicated Learner" := by decide
  have d53 : ("🎤 Voice Pro" : String) ≠ "🔥 3-Day Streak" := by decide
  have d54 : ("🎤 Voice Pro" : String) ≠ "😊 Expression Master" := by decide
  simp only [badgeChecks, newOf_cons, newOf_nil, decide_eq_true_eq, List.append_nil,
    not_mem_append_if d21, not_mem_append_if d31, not_mem_append_if d32,
    not_mem_append_if d41, not_mem_append_if d42, not_mem_append_if d43,
    not_mem_append_if d51, not_mem_append_if d52, not_mem_append_if d53,
    not_mem_append_if d54]

lemma update_streak_badges (today : ℤ) (s : ProgressState) :
    (update_streak today s).badges = s.badges := by
  rcases s with ⟨sc, sk, ld, B⟩
  cases ld with
  | none => rfl
  | some last =>
    simp only [update_streak]
    split_ifs <;> rfl

lemma update_streak_none (today : ℤ) (s : ProgressState)
    (h : s.last_session_date = none) :
    update_streak today s =
      { s with
        sessions_completed := s.sessions_completed + 1
        streak := 1
        last_session_date := some today } := by
  unfold update_streak
  rw [h]

lemma update_streak_same (today : ℤ) (s : ProgressState) (last : ℤ)
    (h : s.last_session_date = some last) (heq : last = today) :
    update_streak today s = s := by
  unfold update_streak
  rw [h]
  simp [heq]

lemma update_streak_diff (today : ℤ) (s : ProgressState) (last : ℤ)
    (h : s.last_session_date = some last) (hne : last ≠ today) :
    update_streak today s =
      { s with
        sessions_completed := s.sessions_completed + 1
        streak :=
          if today - last = 1 then s.streak + 1
          else if 1 < today - last then 1
          else s.streak
        last_session_date := some today } := by
  unfold update_streak
  rw [h]
  simp [hne]

lemma update_progress_counters (feedback : FeedbackReport) (today : ℤ)
    (s : ProgressState) :
    (update_progress feedback today s).1.sessions_completed =
        (update_streak today s).sessions_completed ∧
      (update_progress feedback today s).1.streak = (update_streak today s).streak ∧
      (update_progress feedback today s).1.last_session_date =
        (update_streak today s).last_session_date := by
  simp only [update_progress]
  rw [foldl_badgeStep_eq]
  exact ⟨rfl, rfl, rfl⟩

lemma update_progress_new_badges (feedback : FeedbackReport) (today : ℤ)
    (s : ProgressState) :
    (update_progress feedback today s).2 =
      newOf (badgeChecks feedback (update_streak today s)) s.badges := by
  simp only [update_progress]
  rw [foldl_badgeStep_eq, update_streak_badges]
  rfl

lemma update_progress_badges_append (feedback : FeedbackReport) (today : ℤ)
    (s : ProgressState) :
    (update_progress feedback today s).1.badges =
      s.badges ++ (update_progress feedback today s).2 := by
  simp only [update_progress]
  rw [foldl_badgeStep_eq]
  simp [update_streak_badges]

/-! ### Theorems for the claims -/

/-- C1: the feedback engine computes `expression_score` as the arithmetic mean
of `expression_diversity`, `eye_movement` and `mouth_movement` (excluding
`head_position`); with audio present, `voice_score` is the arithmetic mean of
`volume`, `pitch_variation`, `speech_rate` and `clarity` and `overall_score`
averages the two; with audio absent, `overall_score = expression_score` and
`voice_score` is omitted. -/
theorem c1_feedback_scores (fm : FacialMetrics ℚ) (am : AudioMetrics) :
    ((generate_feedback_fallback fm (some am)).expression_score =
        (fm.expression_diversity + fm.eye_movement + fm.mouth_movement) / 3 ∧
      (generate_feedback_fallback fm (some am)).voice_score =
        some ((am.volume + am.pitch_variation + am.speech_rate + am.clarity) / 4) ∧
      (generate_feedback_fallback fm (some am)).overall_score =
        ((fm.expression_diversity + fm.eye_movement + fm.mouth_movement) / 3 +
          (am.volume + am.pitch_variation + am.speech_rate + am.clarity) / 4) / 2) ∧
    ((generate_feedback_fallback fm none).expression_score =
        (fm.expression_diversity + fm.eye_movement + fm.mouth_movement) / 3 ∧
      (generate_feedback_fallback fm none).voice_score = none ∧
      (generate_feedback_fallback fm none).overall_score =
        (generate_feedback_fallback fm none).expression_score) :=
  ⟨⟨rfl, rfl, rfl⟩, rfl, rfl, rfl⟩

/-- C2: with no credential the remote service is never contacted — the result
is the local heuristic output whatever the remote outcome would have been,
including a successfully decoded response; with a credential, any failed
remote attempt (transport error, missing candidates, malformed JSON, or
missing required field) is discarded entirely and the result is exactly the
local heuristic output for the same metrics, identical to the no-credential
path; the engine is total by construction. -/
theorem c2_fallback_on_failure (api_key : String) (fm : FacialMetrics ℚ)
    (am : Option AudioMetrics) :
    (∀ remote : RemoteResult,
      get_gemini_feedback "" fm am remote = generate_feedback_fallback fm am) ∧
    (∀ remote : RemoteResult, remote.failed →
      get_gemini_feedback api_key fm am remote = generate_feedback_fallback fm am ∧
      get_gemini_feedback api_key fm am remote = get_gemini_feedback "" fm am remote) := by
  have hzero : ∀ remote : RemoteResult,
      get_gemini_feedback "" fm am remote = generate_feedback_fallback fm am := by
    intro remote
    simp [get_gemini_feedback]
  refine ⟨hzero, ?_⟩
  intro remote hfail
  have hmain : get_gemini_feedback api_key fm am remote =
      generate_feedback_fallback fm am := by
    by_cases hk : api_key = ""
    · simp [get_gemini_feedback, hk]
    · cases remote with
      | transportError => simp [get_gemini_feedback, hk]
      | noCandidates => simp [get_gemini_feedback, hk]
      | malformedJson => simp [get_gemini_feedback, hk]
      | parsed rf =>
        have h : rf.toReport = none := hfail
        simp [get_gemini_feedback, hk, h]
  exact ⟨hmain, hmain.trans (hzero remote).symm⟩

/-- Witness for C2: with the empty credential even a successfully decoded
remote response (every required field present) is ignored in favour of the
local heuristic, and with a credential a transport failure falls back to it. -/
theorem c2_fallback_on_failure_witness :
    (get_gemini_feedback "" ⟨1, 2, 3, 4⟩ (some ⟨5, 6, 7, 8⟩)
        (.parsed ⟨some 1, some 2, some 3, some [], some [], some []⟩) =
      generate_feedback_fallback ⟨1, 2, 3, 4⟩ (some ⟨5, 6, 7, 8⟩)) ∧
    (get_gemini_feedback "key" ⟨1, 2, 3, 4⟩ (some ⟨5, 6, 7, 8⟩) .transportError =
      generate_feedback_fallback ⟨1, 2, 3, 4⟩ (some ⟨5, 6, 7, 8⟩)) :=
  ⟨(c2_fallback_on_failure "key" ⟨1, 2, 3, 4⟩ (some ⟨5, 6, 7, 8⟩)).1
      (.parsed ⟨some 1, some 2, some 3, some [], some [], some []⟩),
    ((c2_fallback_on_failure "key" ⟨1, 2, 3, 4⟩ (some ⟨5, 6, 7, 8⟩)).2
        .transportError trivial).1⟩

/-- C3: for every metric input (audio present or absent), the generated report
has non-empty `strengths` and non-empty `areas_to_improve`; when no rule fires
the generic filler strength, filler area and matching generic tip are
substituted (shown concretely below on inputs where no rule fires). -/
theorem c3_nonempty_feedback (fm : FacialMetrics ℚ) (am : Option AudioMetrics) :
    ((generate_feedback_fallback fm am).strengths ≠ [] ∧
      (generate_feedback_fallback fm am).areas_to_improve ≠ []) ∧
    (generate_feedback_fallback ⟨1, 1, 1, 1⟩ (some ⟨1, 1, 60, 80⟩)).strengths =
      ["Consistent delivery"] ∧
    (generate_feedback_fallback ⟨1, 1, 60, 1⟩ (some ⟨1, 1, 60, 80⟩)).areas_to_improve =
      ["Fine-tuning your natural style"] ∧
    (generate_feedback_fallback ⟨1, 1, 60, 1⟩ (some ⟨1, 1, 60, 80⟩)).tips =
      ["Continue practicing to build on your strengths"] := by
  refine ⟨?_, ?_, ?_, ?_⟩
  · cases am with
    | none => exact ⟨ifEmpty_ne_nil _ _, ifEmpty_ne_nil _ _⟩
    | some a => exact ⟨ifEmpty_ne_nil _ _, ifEmpty_ne_nil _ _⟩
  · norm_num [generate_feedback_fallback]
  · norm_num [generate_feedback_fallback]
  · norm_num [generate_feedback_fallback]

/-- Witness for C3 (the main conjunct has no hypotheses; this instantiates it
at concrete metrics). -/
theorem c3_nonempty_feedback_witness :
    (generate_feedback_fallback ⟨1, 1, 1, 1⟩ none).strengths ≠ [] ∧
    (generate_feedback_fallback ⟨1, 1, 1, 1⟩ none).areas_to_improve ≠ [] :=
  (c3_nonempty_feedback ⟨1, 1, 1, 1⟩ none).1

/-- C9: aggregation of an empty frame sequence signals the contract failure
(the `IndexError` raised by `facial_data[0]`, embedded as `none`) rather than
returning any well-formed default `FacialMetrics`. -/
theorem c9_empty_aggregation_fails :
    avg_facial_metrics [] = none :=
  rfl

/-- C10: every branch of the local heuristic that appends an improvement area
appends exactly one matching tip, and no other branch appends a tip, so the
report always has exactly as many tips as areas to improve. -/
theorem c10_tips_match_areas (fm : FacialMetrics ℚ) (am : Option AudioMetrics) :
    (generate_feedback_fallback fm am).tips.length =
      (generate_feedback_fallback fm am).areas_to_improve.length := by
  cases am with
  | none =>
    simp only [generate_feedback_fallback, generate_feedback_fallback_noAudio]
    split_ifs <;> simp_all
  | some a =>
    simp only [generate_feedback_fallback]
    split_ifs <;> simp_all

/-- C6 counterexample: the aggregation in `main` applies no floor-clamping at
all; on the all-zero single-frame sequence every aggregated field is `0`,
which is below the claimed floor of `1.0`. -/
theorem c6_no_floor_counterexample :
    avg_facial_metrics [⟨0, 0, 0, 0⟩] = some ⟨0, 0, 0, 0⟩ ∧
    ¬ (1 : ℚ) ≤ (FacialMetrics.eye_movement ⟨0, 0, 0, 0⟩) := by
  constructor
  · simp [avg_facial_metrics]
  · norm_num

/-- C6 amended: for any non-empty frame sequence the aggregator returns the
plain per-field arithmetic mean with no clamping whatsoever (neither the 0.1
per-frame floor nor the 1.0 floor on the mean): each aggregated field times
the frame count equals the plain sum of that field over the frames. -/
theorem c6_amended_plain_mean (facial_data : List (FacialMetrics ℚ))
    (h : facial_data ≠ []) :
    ∃ m, avg_facial_metrics facial_data = some m ∧
      m.expression_diversity * facial_data.length =
        (facial_data.map FacialMetrics.expression_diversity).sum ∧
      m.eye_movement * facial_data.length =
        (facial_data.map FacialMetrics.eye_movement).sum ∧
      m.mouth_movement * facial_data.length =
        (facial_data.map FacialMetrics.mouth_movement).sum ∧
      m.head_position * facial_data.length =
        (facial_data.map FacialMetrics.head_position).sum := by
  have hlen : (facial_data.length : ℚ) ≠ 0 := by
    simpa using h
  cases facial_data with
  | nil => exact absurd rfl h
  | cons f rest =>
    refine ⟨_, rfl, ?_, ?_, ?_, ?_⟩ <;>
      exact div_mul_cancel₀ _ (by simpa using hlen)

/-- Witness for C6 amended on a concrete two-frame sequence. -/
theorem c6_amended_plain_mean_witness :
    ∃ m, avg_facial_metrics [⟨1, 2, 3, 4⟩, ⟨3, 4, 5, 6⟩] = some m ∧
      m.expression_diversity * (([⟨1, 2, 3, 4⟩, ⟨3, 4, 5, 6⟩] :
          List (FacialMetrics ℚ)).length) =
        (([⟨1, 2, 3, 4⟩, ⟨3, 4, 5, 6⟩] :
          List (FacialMetrics ℚ)).map FacialMetrics.expression_diversity).sum ∧
      m.eye_movement * (([⟨1, 2, 3, 4⟩, ⟨3, 4, 5, 6⟩] :
          List (FacialMetrics ℚ)).length) =
        (([⟨1, 2, 3, 4⟩, ⟨3, 4, 5, 6⟩] :
          List (FacialMetrics ℚ)).map FacialMetrics.eye_movement).sum ∧
      m.mouth_movement * (([⟨1, 2, 3, 4⟩, ⟨3, 4, 5, 6⟩] :
          List (FacialMetrics ℚ)).length) =
        (([⟨1, 2, 3, 4⟩, ⟨3, 4, 5, 6⟩] :
          List (FacialMetrics ℚ)).map FacialMetrics.mouth_movement).sum ∧
      m.head_position * (([⟨1, 2, 3, 4⟩, ⟨3, 4, 5, 6⟩] :
          List (FacialMetrics ℚ)).length) =
        (([⟨1, 2, 3, 4⟩, ⟨3, 4, 5, 6⟩] :
          List (FacialMetrics ℚ)).map FacialMetrics.head_position).sum :=
  c6_amended_plain_mean [⟨1, 2, 3, 4⟩, ⟨3, 4, 5, 6⟩] (by simp)

/-- C7 counterexample: with no face detected the extractor keeps the zero
initializers of the metrics dictionary — all four fields are `0`, not the
claimed no-signal defaults (1.0, 1.0, 1.0, 2.0); and on a detected face whose
relevant landmarks coincide, `eye_movement` is `0`, below the claimed 1.0
floor, while `expression_diversity` stays `0`, not a constant `≥ 2`. -/
theorem c7_zero_defaults_counterexample :
    process_face_landmarks none = ⟨0, 0, 0, 0⟩ ∧
    ((0 : ℝ) ≠ 1 ∧ (0 : ℝ) ≠ 2) ∧
    (process_face_landmarks (some fun _ => ⟨0, 0, 0⟩)).eye_movement = 0 ∧
    (process_face_landmarks (some fun _ => ⟨0, 0, 0⟩)).expression_diversity = 0 := by
  refine ⟨rfl, ⟨by norm_num, by norm_num⟩, ?_, rfl⟩
  simp [process_face_landmarks]

/-- C4: the streak state machine of `update_progress`.  With no previous
session date, `sessions_completed` is incremented, streak becomes 1 and the
date is set; with a differing date, `sessions_completed` is incremented and
the date is set, streak incrementing on a day-gap of 1 and resetting to 1 (not
0) on a gap above 1; on a gap of 0 (second session the same day) streak,
`sessions_completed` and `last_session_date` are all left unchanged. -/
theorem c4_streak_state_machine (feedback : FeedbackReport) (today : ℤ)
    (s : ProgressState) :
    (s.last_session_date = none →
      (update_progress feedback today s).1.sessions_completed = s.sessions_completed + 1 ∧
      (update_progress feedback today s).1.streak = 1 ∧
      (update_progress feedback today s).1.last_session_date = some today) ∧
    (∀ last, s.last_session_date = some last →
      (last ≠ today →
        (update_progress feedback today s).1.sessions_completed = s.sessions_completed + 1 ∧
        (update_progress feedback today s).1.last_session_date = some today) ∧
      (today - last = 1 →
        (update_progress feedback today s).1.streak = s.streak + 1) ∧
      (1 < today - last →
        (update_progress feedback today s).1.streak = 1) ∧
      (today - last = 0 →
        (update_progress feedback today s).1.sessions_completed = s.sessions_completed ∧
        (update_progress feedback today s).1.streak = s.streak ∧
        (update_progress feedback today s).1.last_session_date = s.last_session_date)) := by
  obtain ⟨hs, hk, hl⟩ := update_progress_counters feedback today s
  constructor
  · intro h0
    rw [hs, hk, hl, update_streak_none today s h0]
    exact ⟨rfl, rfl, rfl⟩
  · intro last hlast
    refine ⟨?_, ?_, ?_, ?_⟩
    · intro hne
      rw [hs, hl, update_streak_diff today s last hlast hne]
      exact ⟨rfl, rfl⟩
    · intro hg1
      have hne : last ≠ today := by
        intro e
        rw [e] at hg1
        simp at hg1
      rw [hk, update_streak_diff today s last hlast hne]
      simp [hg1]
    · intro hgt
      have hne : last ≠ today := by
        intro e
        rw [e] at hgt
        simp at hgt
      have hne1 : today - last ≠ 1 := by omega
      rw [hk, update_streak_diff today s last hlast hne]
      simp [hne1, hgt]
    · intro hg0
      have heq : last = today := by omega
      rw [hs, hk, hl, update_streak_same today s last hlast heq]
      exact ⟨rfl, rfl, hlast.symm ▸ rfl⟩

/-- Witness for C4: from streak 2 on day 3, a session on day 4 (gap 1) yields
sessions 3, streak 3 and the stored date 4. -/
theorem c4_streak_state_machine_witness :
    (update_progress ⟨0, 0, none, [], [], []⟩ 4 ⟨2, 2, some 3, []⟩).1.sessions_completed = 3 ∧
    (update_progress ⟨0, 0, none, [], [], []⟩ 4 ⟨2, 2, some 3, []⟩).1.streak = 3 ∧
    (update_progress ⟨0, 0, none, [], [], []⟩ 4 ⟨2, 2, some 3, []⟩).1.last_session_date =
      some 4 := by
  have h := (c4_streak_state_machine ⟨0, 0, none, [], [], []⟩ 4 ⟨2, 2, some 3, []⟩).2 3 rfl
  exact ⟨(h.1 (by decide)).1, h.2.1 (by decide), (h.1 (by decide)).2⟩

/-- C5: badge bookkeeping of `update_progress`.  The returned list is exactly
the badges newly appended by this call, in evaluation order; the unlock
conditions are `overall_score > 85`, `sessions_completed == 5` (exactly),
`streak ≥ 3`, `expression_score > 80` and `voice_score > 80` (when present),
each suppressed when the badge is already held; the no-duplicate invariant of
the badge collection is preserved; and the Dedicated Learner badge is returned
only on a call where the updated `sessions_completed` is exactly 5 and the
badge was not already held. -/
theorem c5_badge_awarding (feedback : FeedbackReport) (today : ℤ)
    (s : ProgressState) (hnd : s.badges.Nodup) :
    (update_progress feedback today s).1.badges =
        s.badges ++ (update_progress feedback today s).2 ∧
    (update_progress feedback today s).1.badges.Nodup ∧
    (update_progress feedback today s).2 =
      (if 85 < feedback.overall_score ∧ "⭐ Star Performer" ∉ s.badges then
        ["⭐ Star Performer"] else []) ++
      ((if (update_streak today s).sessions_completed = 5 ∧
          "🏆 Dedicated Learner" ∉ s.badges then
        ["🏆 Dedicated Learner"] else []) ++
      ((if 3 ≤ (update_streak today s).streak ∧ "🔥 3-Day Streak" ∉ s.badges then
        ["🔥 3-Day Streak"] else []) ++
      ((if 80 < feedback.expression_score ∧ "😊 Expression Master" ∉ s.badges then
        ["😊 Expression Master"] else []) ++
      (if 80 < feedback.voice_score.getD 0 ∧ "🎤 Voice Pro" ∉ s.badges then
        ["🎤 Voice Pro"] else [])))) ∧
    ("🏆 Dedicated Learner" ∈ (update_progress feedback today s).2 →
      (update_streak today s).sessions_completed = 5 ∧
      "🏆 Dedicated Learner" ∉ s.badges) := by
  have hchar : (update_progress feedback today s).2 =
      (if 85 < feedback.overall_score ∧ "⭐ Star Performer" ∉ s.badges then
        ["⭐ Star Performer"] else []) ++
      ((if (update_streak today s).sessions_completed = 5 ∧
          "🏆 Dedicated Learner" ∉ s.badges then
        ["🏆 Dedicated Learner"] else []) ++
      ((if 3 ≤ (update_streak today s).streak ∧ "🔥 3-Day Streak" ∉ s.badges then
        ["🔥 3-Day Streak"] else []) ++
      ((if 80 < feedback.expression_score ∧ "😊 Expression Master" ∉ s.badges then
        ["😊 Expression Master"] else []) ++
      (if 80 < feedback.voice_score.getD 0 ∧ "🎤 Voice Pro" ∉ s.badges then
        ["🎤 Voice Pro"] else [])))) := by
    rw [update_progress_new_badges, newOf_badgeChecks]
  refine ⟨update_progress_badges_append feedback today s, ?_, hchar, ?_⟩
  · rw [update_progress_badges_append, update_progress_new_badges]
    exact nodup_append_newOf _ _ hnd
  · intro hmem
    by_cases hc : (update_streak today s).sessions_completed = 5 ∧
        "🏆 Dedicated Learner" ∉ s.badges
    · exact hc
    · exfalso
      rw [hchar, if_neg hc] at hmem
      simp only [List.mem_append, mem_if_singleton, List.not_mem_nil, false_or] at hmem
      rcases hmem with ⟨_, h⟩ | ⟨_, h⟩ | ⟨_, h⟩ | ⟨_, h⟩ <;> exact absurd h (by decide)

/-- Witness for C5: starting from four completed sessions, no badges and high
scores, the fifth session unlocks the four satisfied badges in evaluation
order (the streak badge stays locked at streak 1). -/
theorem c5_badge_awarding_witness :
    (update_progress ⟨90, 85, some 90, [], [], []⟩ 1 ⟨4, 2, none, []⟩).2 =
      ["⭐ Star Performer", "🏆 Dedicated Learner", "😊 Expression Master", "🎤 Voice Pro"] := by
  have h :=
    (c5_badge_awarding ⟨90, 85, some 90, [], [], []⟩ 1 ⟨4, 2, none, []⟩ List.nodup_nil).2.2.1
  rw [h]
  norm_num [update_streak]

/-- C7 amended: for every input frame the extractor returns a well-formed
`FacialMetrics`; with no face it returns all zeros (never the 1.0/2.0
defaults); with a face, `eye_movement` is the Euclidean distance between
landmarks 145 and 374 scaled by 100, `mouth_movement` is the absolute vertical
difference between mouth-corner landmarks 61 and 291 scaled by 100, and
`head_position` is `(z of landmark 0 + 0.5) * 100`, none of them floored, and
`expression_diversity` is always `0`. -/
theorem c7_amended_extractor :
    process_face_landmarks none = ⟨0, 0, 0, 0⟩ ∧
    ∀ lm : ℕ → Landmark,
      (process_face_landmarks (some lm)).eye_movement =
        Real.sqrt (((lm 145).x - (lm 374).x) ^ 2 + ((lm 145).y - (lm 374).y) ^ 2) * 100 ∧
      (process_face_landmarks (some lm)).mouth_movement =
        |(lm 61).y - (lm 291).y| * 100 ∧
      (process_face_landmarks (some lm)).head_position = ((lm 0).z + 0.5) * 100 ∧
      (process_face_landmarks (some lm)).expression_diversity = 0 :=
  ⟨rfl, fun _ => ⟨rfl, rfl, rfl, rfl⟩⟩

/-- C8: the fixed threshold table of the local heuristic — eye movement above
70 yields the eye-expressiveness strength, mouth movement below 60 yields the
facial-expressions area with its matching tip, speech rate below 50 yields the
speak-faster tip and above 85 the slow-down tip, pitch variation above 70 and
clarity above 80 yield further strengths — together with the end-to-end
scenario on facial metrics (75, 80, 40, 55) with no audio and no credential:
expression and overall score 65, the eye strength present, and the
facial-expressions area present with its matching tip. -/
theorem c8_threshold_table (fm : FacialMetrics ℚ) (am : AudioMetrics) :
    ((70 < fm.eye_movement →
        "Good eye expressiveness" ∈ (generate_feedback_fallback fm (some am)).strengths) ∧
      (fm.mouth_movement < 60 →
        "Facial expressions" ∈ (generate_feedback_fallback fm (some am)).areas_to_improve ∧
        "Try to be more expressive with your mouth when speaking" ∈
          (generate_feedback_fallback fm (some am)).tips) ∧
      (am.speech_rate < 50 →
        "Consider speaking a bit faster to maintain audience engagement" ∈
          (generate_feedback_fallback fm (some am)).tips) ∧
      (85 < am.speech_rate →
        "Try slowing down a bit to ensure clarity" ∈
          (generate_feedback_fallback fm (some am)).tips) ∧
      (70 < am.pitch_variation →
        "Excellent vocal variety" ∈ (generate_feedback_fallback fm (some am)).strengths) ∧
      (80 < am.clarity →
        "Clear pronunciation" ∈ (generate_feedback_fallback fm (some am)).strengths)) ∧
    ((generate_feedback_fallback ⟨75, 80, 40, 55⟩ none).expression_score = 65 ∧
      (generate_feedback_fallback ⟨75, 80, 40, 55⟩ none).overall_score = 65 ∧
      "Good eye expressiveness" ∈
        (generate_feedback_fallback ⟨75, 80, 40, 55⟩ none).strengths ∧
      "Facial expressions" ∈
        (generate_feedback_fallback ⟨75, 80, 40, 55⟩ none).areas_to_improve ∧
      "Try to be more expressive with your mouth when speaking" ∈
        (generate_feedback_fallback ⟨75, 80, 40, 55⟩ none).tips ∧
      ∀ remote, get_gemini_feedback "" ⟨75, 80, 40, 55⟩ none remote =
        generate_feedback_fallback ⟨75, 80, 40, 55⟩ none) := by
  refine ⟨⟨?_, ?_, ?_, ?_, ?_, ?_⟩, ?_, ?_, ?_, ?_, ?_, ?_⟩
  · intro h
    by_cases hp : 70 < am.pitch_variation <;> by_cases hc : 80 < am.clarity <;>
      simp [generate_feedback_fallback, h, hp, hc]
  · intro h
    rcases lt_trichotomy am.speech_rate 50 with hs | hs | hs
    · constructor <;> simp [generate_feedback_fallback, h, hs]
    · have hs1 : ¬ am.speech_rate < 50 := by rw [hs]; norm_num
      by_cases hs2 : 85 < am.speech_rate <;>
        constructor <;> simp [generate_feedback_fallback, h, hs1, hs2]
    · have hs1 : ¬ am.speech_rate < 50 := by linarith
      by_cases hs2 : 85 < am.speech_rate <;>
        constructor <;> simp [generate_feedback_fallback, h, hs1, hs2]
  · intro h
    by_cases hm : fm.mouth_movement < 60 <;> simp [generate_feedback_fallback, h, hm]
  · intro h
    have hs1 : ¬ am.speech_rate < 50 := by linarith
    by_cases hm : fm.mouth_movement < 60 <;>
      simp [generate_feedback_fallback, h, hs1, hm]
  · intro h
    by_cases he : 70 < fm.eye_movement <;> by_cases hc : 80 < am.clarity <;>
      simp [generate_feedback_fallback, h, he, hc]
  · intro h
    by_cases he : 70 < fm.eye_movement <;> by_cases hp : 70 < am.pitch_variation <;>
      simp [generate_feedback_fallback, h, he, hp]
  · norm_num [generate_feedback_fallback, generate_feedback_fallback_noAudio,
      expressionScore]
  · norm_num [generate_feedback_fallback, generate_feedback_fallback_noAudio,
      expressionScore]
  · norm_num [generate_feedback_fallback, generate_feedback_fallback_noAudio]
  · norm_num [generate_feedback_fallback, generate_feedback_fallback_noAudio]
  · norm_num [generate_feedback_fallback, generate_feedback_fallback_noAudio]
  · intro remote
    simp [get_gemini_feedback]

/-- Witness for C8 on concrete metrics firing the eye, mouth, speak-faster,
pitch and clarity rules, plus a second audio input firing the slow-down
rule. -/
theorem c8_threshold_table_witness :
    ("Good eye expressiveness" ∈
      (generate_feedback_fallback ⟨75, 80, 40, 55⟩ (some ⟨60, 75, 40, 85⟩)).strengths) ∧
    ("Facial expressions" ∈
      (generate_feedback_fallback ⟨75, 80, 40, 55⟩ (some ⟨60, 75, 40, 85⟩)).areas_to_improve) ∧
    ("Consider speaking a bit faster to maintain audience engagement" ∈
      (generate_feedback_fallback ⟨75, 80, 40, 55⟩ (some ⟨60, 75, 40, 85⟩)).tips) ∧
    ("Excellent vocal variety" ∈
      (generate_feedback_fallback ⟨75, 80, 40, 55⟩ (some ⟨60, 75, 40, 85⟩)).strengths) ∧
    ("Clear pronunciation" ∈
      (generate_feedback_fallback ⟨75, 80, 40, 55⟩ (some ⟨60, 75, 40, 85⟩)).strengths) ∧
    ("Try slowing down a bit to ensure clarity" ∈
      (generate_feedback_fallback ⟨75, 80, 40, 55⟩ (some ⟨60, 75, 90, 85⟩)).tips) :=
  ⟨(c8_threshold_table ⟨75, 80, 40, 55⟩ ⟨60, 75, 40, 85⟩).1.1 (by norm_num),
    ((c8_threshold_table ⟨75, 80, 40, 55⟩ ⟨60, 75, 40, 85⟩).1.2.1 (by norm_num)).1,
    (c8_threshold_table ⟨75, 80, 40, 55⟩ ⟨60, 75, 40, 85⟩).1.2.2.1 (by norm_num),
    (c8_threshold_table ⟨75, 80, 40, 55⟩ ⟨60, 75, 40, 85⟩).1.2.2.2.2.1 (by norm_num),
    (c8_threshold_table ⟨75, 80, 40, 55⟩ ⟨60, 75, 40, 85⟩).1.2.2.2.2.2 (by norm_num),
    (c8_threshold_table ⟨75, 80, 40, 55⟩ ⟨60, 75, 90, 85⟩).1.2.2.2.1 (by norm_num)⟩

end PersonaAI
